import Mathlib

/-!
# KaleidoscopeJIT

A shallow embedding of `src/JIT/KaleidoscopeJIT.h`: the AST materialization layer
(`KaleidoscopeASTLayer`, `KaleidoscopeASTMaterializationUnit`) and the engine
(`KaleidoscopeJIT`).

Conventions of the embedding.

* A C++ `Error` is an `Option ErrorInfo` (`none` is `Error::success()`), an
  `Expected<T>` is an `Except ErrorInfo T`.
* A `std::unique_ptr<T>` that the code moves from is an `Option T`; `none` is the
  moved-from (null) pointer.
* Objects reached through references (`RT->getJITDylib()`, `MainJD`) are passed as
  explicit state and returned updated.
* A function that talks to a collaborator outside the file returns a `Traced` value:
  the list of the calls it made, in program order, next to its result. Getters
  (`getName`, `getJITDylib`, `getDefaultResourceTracker`, `getLazyCallThroughManager`,
  ...) and the pure `getInterface` are not logged; the call of the layer's own `emit`
  by `materialize` is, since the conversion to IR happens inside it.
* A function that may end the process returns an `Outcome`.
* What the collaborators answer (the mangler, the IR generator, the passes, the
  setup steps of `Create`, the teardown steps) is a parameter.
-/

namespace Kaleidoscope

/-! ## Data model -/

/-- Modelled from the spec: `PrototypeAST` is only forward-declared (line 26); the
spec gives it a name and a parameter list. -/
structure PrototypeAST where
  Name : String
  Args : List String
deriving DecidableEq, Repr

/-- Modelled from the spec: `ExprAST` is only forward-declared (line 27); the spec
calls the body an expression tree. No function of the file looks inside it. -/
inductive ExprAST where
  | leaf (tok : String)
  | node (op : String) (lhs rhs : ExprAST)
deriving DecidableEq, Repr

/-- The class `FunctionAST` (lines 29-41): a prototype and a body. -/
structure FunctionAST where
  Proto : PrototypeAST
  Body : ExprAST
deriving DecidableEq, Repr

/-- Modelled from the spec: `FunctionAST::getName` is declared on line 39 and its
body is not part of the file; the name of a function is the name of its prototype. -/
def FunctionAST.getName (F : FunctionAST) : String :=
  F.Proto.Name

/-- An interned, mangled symbol name (`SymbolStringPtr`). -/
abbrev SymbolStringPtr := String

/-- The target data layout (`llvm::DataLayout`), kept abstract: its string
representation and the global symbol marker it prescribes. -/
structure DataLayout where
  Desc : String
  GlobalMarker : String
deriving DecidableEq, Repr

/-- The mangler `MangleAndInterner`, a collaborator: a pure map from a data layout
and a source-level name to the linkage-level symbol. -/
abbrev Mangler := DataLayout → String → SymbolStringPtr

/-- The flag names of `JITSymbolFlags` (an enumeration of the library). Line 95
uses `Exported` and `Callable`. -/
inductive FlagNames where
  | HasError
  | Weak
  | Common
  | Absolute
  | Exported
  | Callable
  | MaterializationSideEffectsOnly
deriving DecidableEq, Repr

/-- A flag word `JITSymbolFlags`: the set of the flag names that are set; the
bitwise or of two flag names is the union of the two singletons. -/
abbrev JITSymbolFlags := Finset FlagNames

/-- The map `SymbolFlagsMap`, as an association list in insertion order. -/
abbrev SymbolFlagsMap := List (SymbolStringPtr × JITSymbolFlags)

/-- The assignment `Symbols[k] = v` of line 95: overwrite the entry of `k` when
there is one, insert it otherwise. -/
def SymbolFlagsMap.assign (m : SymbolFlagsMap) (k : SymbolStringPtr) (v : JITSymbolFlags) :
    SymbolFlagsMap :=
  if m.any (fun kv => kv.1 == k) then
    m.map (fun kv => if kv.1 == k then (k, v) else kv)
  else
    m ++ [(k, v)]

/-- The type `MaterializationUnit::Interface`: the symbol flags and the initializer
symbol (`nullptr` is `none`). -/
structure Interface where
  SymbolFlags : SymbolFlagsMap
  InitSymbol : Option SymbolStringPtr
deriving DecidableEq

/-- A resource tracker (`ResourceTrackerSP`), identified by a number. The Dylib it
belongs to is the Dylib state passed along with it. -/
structure ResourceTracker where
  Id : Nat
deriving DecidableEq, Repr

/-- An error value (`llvm::ErrorInfo`): the duplicate-definition error of the Dylib,
or any other error, carrying its message. -/
inductive ErrorInfo where
  | DuplicateDefinition (SymbolName : SymbolStringPtr)
  | StringError (Msg : String)
deriving DecidableEq, Repr

/-- One function of an IR module (`llvm::Function`), kept abstract: a name and a
body of instructions. -/
structure IRFunction where
  Name : String
  Insts : List String
deriving DecidableEq, Repr

/-- An IR module (`llvm::Module`): an identifier and its functions in module order. -/
structure Module where
  ModuleID : String
  Functions : List IRFunction
deriving DecidableEq, Repr

/-- A module behind its thread-safe wrapper (`ThreadSafeModule`). -/
structure ThreadSafeModule where
  M : Module
deriving DecidableEq, Repr

/-- A materialization request (`MaterializationResponsibility`): the symbols this
compile is responsible for. -/
structure MaterializationResponsibility where
  Symbols : List SymbolStringPtr
deriving DecidableEq, Repr

/-- The IR generator `irgenAndTakeOwnership` (declared on line 43, defined outside
the file), a collaborator: from a function and a suffix to a module. -/
abbrev IRGen := FunctionAST → String → ThreadSafeModule

/-- The four layers of the engine that are `IRLayer`s or sit on one. -/
inductive LayerKind where
  | Object
  | Compile
  | Optimize
  | CompileOnDemand
deriving DecidableEq, Repr

/-- The four function passes the file creates (lines 204-207). -/
inductive PassKind where
  | InstructionCombining
  | Reassociate
  | GVN
  | CFGSimplification
deriving DecidableEq, Repr

/-- The address of an error handler handed to a lazy call-through manager. -/
inductive HandlerAddr where
  | handleLazyCallThroughError
  | other (Name : String)
deriving DecidableEq, Repr

/-- The class `KaleidoscopeASTLayer` (lines 74-103): the base layer it emits to and
the data layout it mangles with. -/
structure KaleidoscopeASTLayer where
  BaseLayer : LayerKind
  DL : DataLayout
deriving DecidableEq, Repr

/-- The class `KaleidoscopeASTMaterializationUnit` (lines 52-72): the interface held
by the base class, the layer, and the owned function. -/
structure KaleidoscopeASTMaterializationUnit where
  Iface : Interface
  L : KaleidoscopeASTLayer
  F : Option FunctionAST
deriving DecidableEq

/-- The method `KaleidoscopeASTMaterializationUnit::getName` (lines 57-60). -/
def KaleidoscopeASTMaterializationUnit.getName (_U : KaleidoscopeASTMaterializationUnit) :
    String :=
  "KaleidoscopeASTMaterializationUnit"

/-- The symbols of a unit (`MaterializationUnit::getSymbols`). -/
def KaleidoscopeASTMaterializationUnit.getSymbols (U : KaleidoscopeASTMaterializationUnit) :
    SymbolFlagsMap :=
  U.Iface.SymbolFlags

/-- A call made to a collaborator, or, for `ASTLayer_emit`, to the layer's own
`emit`. The call `createLazyCallThroughManager` is the one of the library that
creates the lazy call-through manager of the indirection utilities with an error
handler; it is listed so that its absence from a trace can be stated. -/
inductive Call where
  | define (MU : KaleidoscopeASTMaterializationUnit) (RT : ResourceTracker)
  | ASTLayer_emit (MR : MaterializationResponsibility) (F : Option FunctionAST)
  | irgenAndTakeOwnership (F : FunctionAST) (Suffix : String)
  | BaseLayer_emit (Layer : LayerKind) (MR : MaterializationResponsibility)
      (TSM : ThreadSafeModule)
  | SelfExecutorProcessControl_Create
  | ExecutionSession_new
  | EPCIndirectionUtils_Create
  | createLazyCallThroughManager (ErrorHandler : HandlerAddr)
  | setUpInProcessLCTMReentryViaEPCIU
  | JITTargetMachineBuilder_new (Triple : String)
  | getDefaultDataLayoutForTarget
  | Layer_new (Layer : LayerKind) (Base : Option LayerKind)
  | createBareJITDylib (Name : String)
  | GetForCurrentProcess (GlobalMarker : String)
  | addGenerator
  | endSession
  | cleanup
  | reportError (Err : ErrorInfo)
  | Layer_add (Layer : LayerKind) (RT : ResourceTracker) (TSM : ThreadSafeModule)
  | ES_lookup (JD : String) (Sym : SymbolStringPtr)
  | FPM_new (ModuleID : String)
  | FPM_add (P : PassKind)
  | FPM_doInitialization
  | FPM_run (F : IRFunction)
deriving DecidableEq

/-- A result together with the calls made while computing it, in program order. -/
structure Traced (α : Type) where
  calls : List Call
  value : α

/-- Modelled from the spec: how a function that may end the process ends. The macro
`llvm_unreachable` of the library is not part of the file; sections 4.1 and 7 make
reaching it a fatal programming-contract violation, not a recoverable error, so
`unreachable` ends the process with the message and nothing is returned. `exited`
is a call of `exit` with a status. -/
inductive Outcome (α : Type) where
  | returned (value : α)
  | unreachable (Msg : String)
  | exited (Status : Int)
deriving DecidableEq, Repr

/-! ## The Dylib -/

/-- Modelled from the spec: the lifecycle state of a symbol entry of a Dylib
(section 3): declared, materializing, ready. -/
inductive SymbolState where
  | declared
  | materializing
  | ready
deriving DecidableEq, Repr

/-- Modelled from the spec: a symbol entry of a Dylib: its flags, its lifecycle
state and the tracker it was declared under. -/
structure SymbolTableEntry where
  Flags : JITSymbolFlags
  State : SymbolState
  RT : ResourceTracker
deriving DecidableEq

/-- A definition generator of a Dylib: the search of the symbols of the running
process, with the global marker it strips. -/
structure DefinitionGenerator where
  GlobalMarker : String
deriving DecidableEq, Repr

/-- Modelled from the spec: the class `JITDylib` of the library is not part of the
file. A Dylib is a named symbol table with the units still pending, its default
tracker and its fallback generators. -/
structure JITDylib where
  Name : String
  Symbols : List (SymbolStringPtr × SymbolTableEntry)
  Pending : List (ResourceTracker × KaleidoscopeASTMaterializationUnit)
  DefaultRT : ResourceTracker
  Generators : List DefinitionGenerator
deriving DecidableEq

/-- Whether the name has an entry in the symbol table of the Dylib. -/
def JITDylib.isDeclared (JD : JITDylib) (Sym : SymbolStringPtr) : Bool :=
  JD.Symbols.any (fun kv => kv.1 == Sym)

/-- Modelled from the spec: `JITDylib::define` of the library is not part of the
file. Section 4.1 and section 7: declaring fails with a duplicate-symbol error if a
name of the unit is already declared in the Dylib and not yet removed, and then no
partial registration occurs; otherwise every name of the unit is entered as
declared under the tracker and the unit is pending. -/
def JITDylib.define (JD : JITDylib) (MU : KaleidoscopeASTMaterializationUnit)
    (RT : ResourceTracker) : Option ErrorInfo × JITDylib :=
  match MU.getSymbols.find? (fun kv => JD.isDeclared kv.1) with
  | some kv => (some (ErrorInfo.DuplicateDefinition kv.1), JD)
  | none =>
    (none,
      { JD with
        Symbols := JD.Symbols ++
          MU.getSymbols.map (fun kv => (kv.1, SymbolTableEntry.mk kv.2 SymbolState.declared RT))
        Pending := JD.Pending ++ [(RT, MU)] })

/-- Modelled from the spec: `ResourceTracker::remove` of the library is not part of
the file. Sections 3 and 5: revoking a tracker releases every resource registered
under it. -/
def JITDylib.remove (JD : JITDylib) (RT : ResourceTracker) : JITDylib :=
  { JD with
    Symbols := JD.Symbols.filter (fun kv => kv.2.RT != RT)
    Pending := JD.Pending.filter (fun p => p.1 != RT) }

/-- The default tracker of a Dylib (`JITDylib::getDefaultResourceTracker`). -/
def JITDylib.getDefaultResourceTracker (JD : JITDylib) : ResourceTracker :=
  JD.DefaultRT

/-! ## `KaleidoscopeASTLayer` and `KaleidoscopeASTMaterializationUnit` -/

/-- The method `KaleidoscopeASTLayer::getInterface` (lines 91-97). -/
def KaleidoscopeASTLayer.getInterface (Mangle : Mangler) (L : KaleidoscopeASTLayer)
    (F : FunctionAST) : Interface :=
  let Symbols : SymbolFlagsMap := []
  let Symbols := Symbols.assign (Mangle L.DL F.getName)
    ({FlagNames.Exported} ∪ {FlagNames.Callable})
  Interface.mk Symbols none

/-- The constructor of `KaleidoscopeASTMaterializationUnit` (lines 105-106). -/
def KaleidoscopeASTMaterializationUnit.new (Mangle : Mangler) (L : KaleidoscopeASTLayer)
    (F : FunctionAST) : KaleidoscopeASTMaterializationUnit :=
  { Iface := L.getInterface Mangle F, L := L, F := some F }

/-- The method `KaleidoscopeASTLayer::add` (lines 79-84); `JD` is the Dylib of the
tracker, `RT->getJITDylib()`. -/
def KaleidoscopeASTLayer.add (Mangle : Mangler) (L : KaleidoscopeASTLayer)
    (RT : ResourceTracker) (F : FunctionAST) (JD : JITDylib) :
    Traced (Option ErrorInfo × JITDylib) :=
  let MU := KaleidoscopeASTMaterializationUnit.new Mangle L F
  { calls := [Call.define MU RT], value := JD.define MU RT }

/-- The method `KaleidoscopeASTLayer::emit` (lines 86-89). The argument `F` is the
pointer moved into the call; dereferencing a null `F` is undefined, `none`.
Otherwise the function is converted with the empty suffix and the module goes to
the base layer with the request. -/
def KaleidoscopeASTLayer.emit (irgen : IRGen) (L : KaleidoscopeASTLayer)
    (MR : MaterializationResponsibility) (F : Option FunctionAST) : Option (Traced Unit) :=
  match F with
  | none => none
  | some f =>
    let TSM := irgen f ""
    some { calls := [Call.irgenAndTakeOwnership f "", Call.BaseLayer_emit L.BaseLayer MR TSM],
           value := () }

/-- The method `KaleidoscopeASTMaterializationUnit::materialize` (lines 108-111):
the owned function is moved into `L.emit`, which leaves the member null. -/
def KaleidoscopeASTMaterializationUnit.materialize (irgen : IRGen)
    (U : KaleidoscopeASTMaterializationUnit) (R : MaterializationResponsibility) :
    Option (Traced KaleidoscopeASTMaterializationUnit) :=
  match U.L.emit irgen R U.F with
  | none => none
  | some r =>
    some { calls := Call.ASTLayer_emit R U.F :: r.calls, value := { U with F := none } }

/-- The method `KaleidoscopeASTMaterializationUnit::discard` (lines 65-68): its body
is `llvm_unreachable` with the message; before it nothing is called and nothing is
assigned. -/
def KaleidoscopeASTMaterializationUnit.discard (_U : KaleidoscopeASTMaterializationUnit)
    (_JD : JITDylib) (_Sym : SymbolStringPtr) :
    Traced (Outcome (KaleidoscopeASTMaterializationUnit × JITDylib)) :=
  { calls := [], value := Outcome.unreachable "Kaleidoscope functions are not overridable" }

/-! ## `KaleidoscopeJIT` -/

/-- The executor process control of the session; the file reads its target triple. -/
structure ExecutorProcessControl where
  TargetTriple : String
deriving DecidableEq, Repr

/-- The execution session (`ExecutionSession`), built around the process control. -/
structure ExecutionSession where
  EPC : ExecutorProcessControl
deriving DecidableEq, Repr

/-- A lazy call-through manager, with the error handler it was created with. -/
structure LazyCallThroughManager where
  ErrorHandler : HandlerAddr
deriving DecidableEq, Repr

/-- The indirection utilities (`EPCIndirectionUtils`): they own the lazy
call-through manager once `createLazyCallThroughManager` has made one. -/
structure EPCIndirectionUtils where
  LCTM : Option LazyCallThroughManager
deriving DecidableEq, Repr

/-- The getter `EPCIndirectionUtils::getLazyCallThroughManager`; `none` when no
manager has been created. -/
def EPCIndirectionUtils.getLazyCallThroughManager (U : EPCIndirectionUtils) :
    Option LazyCallThroughManager :=
  U.LCTM

/-- The builder `JITTargetMachineBuilder`, made from a target triple (line 172). -/
structure JITTargetMachineBuilder where
  TT : String
deriving DecidableEq, Repr

/-- The class `KaleidoscopeJIT` (lines 113-215). The four layers are a fixed stack
(object, compile, optimize over compile, compile-on-demand over optimize); the
engine records the manager the compile-on-demand layer was built with. -/
structure KaleidoscopeJIT where
  ES : ExecutionSession
  EPCIU : EPCIndirectionUtils
  DL : DataLayout
  JTMB : JITTargetMachineBuilder
  CODLayerLCTM : Option LazyCallThroughManager
  MainJD : JITDylib
deriving DecidableEq

/-- What was written to `errs()` and how the process went on. -/
structure Reported where
  errs : String
  outcome : Outcome Unit
deriving DecidableEq, Repr

/-- The function `KaleidoscopeJIT::handleLazyCallThroughError` (lines 130-134). -/
def KaleidoscopeJIT.handleLazyCallThroughError : Reported :=
  { errs := "LazyCallThrough error: Could not find function body",
    outcome := Outcome.exited 1 }

/-- The library function `cantFail` (used on line 145): the value of a success;
on a failure value the process ends in `llvm_unreachable`. -/
def cantFail {α : Type} (ValOrErr : Except ErrorInfo α) : Outcome α :=
  match ValOrErr with
  | Except.ok v => Outcome.returned v
  | Except.error _ => Outcome.unreachable "Failure value returned from cantFail wrapped call"

/-- What the fallible steps of `Create` and of the constructor answer, one field a
step, in program order. -/
structure SetupOutcomes where
  EPC : Except ErrorInfo ExecutorProcessControl
  EPCIU : Except ErrorInfo EPCIndirectionUtils
  Reentry : Option ErrorInfo
  DL : Except ErrorInfo DataLayout
  ProcessSymbols : Except ErrorInfo DefinitionGenerator

/-- The Dylib `createBareJITDylib` returns: the name, nothing declared, no generator. -/
def JITDylib.bare (Name : String) : JITDylib :=
  { Name := Name, Symbols := [], Pending := [], DefaultRT := ResourceTracker.mk 0,
    Generators := [] }

/-- The method `JITDylib::addGenerator`. -/
def JITDylib.addGenerator (JD : JITDylib) (G : DefinitionGenerator) : JITDylib :=
  { JD with Generators := JD.Generators ++ [G] }

/-- The constructor of `KaleidoscopeJIT` (lines 137-147): the members in declaration
order, then the body, whose `cantFail` ends the process when the generator for the
symbols of the process cannot be made. -/
def KaleidoscopeJIT.new (ProcessSymbols : Except ErrorInfo DefinitionGenerator)
    (ES : ExecutionSession) (EPCIU : EPCIndirectionUtils) (JTMB : JITTargetMachineBuilder)
    (DL : DataLayout) : Traced (Outcome KaleidoscopeJIT) :=
  let members : List Call :=
    [Call.Layer_new LayerKind.Object none,
     Call.Layer_new LayerKind.Compile (some LayerKind.Object),
     Call.Layer_new LayerKind.Optimize (some LayerKind.Compile),
     Call.Layer_new LayerKind.CompileOnDemand (some LayerKind.Optimize),
     Call.createBareJITDylib "<main>"]
  let MainJD := JITDylib.bare "<main>"
  let body := members ++ [Call.GetForCurrentProcess DL.GlobalMarker]
  match cantFail ProcessSymbols with
  | Outcome.returned G =>
    { calls := body ++ [Call.addGenerator],
      value := Outcome.returned
        { ES := ES, EPCIU := EPCIU, DL := DL, JTMB := JTMB,
          CODLayerLCTM := EPCIU.getLazyCallThroughManager,
          MainJD := MainJD.addGenerator G } }
  | Outcome.unreachable Msg => { calls := body, value := Outcome.unreachable Msg }
  | Outcome.exited Status => { calls := body, value := Outcome.exited Status }

/-- What the two steps of the destructor answer. -/
structure TeardownOutcomes where
  endSession : Option ErrorInfo
  cleanup : Option ErrorInfo
deriving DecidableEq, Repr

/-- The destructor of `KaleidoscopeJIT` (lines 148-154). It returns nothing. -/
def KaleidoscopeJIT.destroy (_J : KaleidoscopeJIT) (o : TeardownOutcomes) : Traced Unit :=
  let calls := [Call.endSession]
  let calls :=
    match o.endSession with
    | some Err => calls ++ [Call.reportError Err]
    | none => calls
  let calls := calls ++ [Call.cleanup]
  let calls :=
    match o.cleanup with
    | some Err => calls ++ [Call.reportError Err]
    | none => calls
  { calls := calls, value := () }

/-- The function `KaleidoscopeJIT::Create` (lines 156-179). -/
def KaleidoscopeJIT.Create (o : SetupOutcomes) :
    Traced (Outcome (Except ErrorInfo KaleidoscopeJIT)) :=
  let calls := [Call.SelfExecutorProcessControl_Create]
  match o.EPC with
  | Except.error Err => { calls := calls, value := Outcome.returned (Except.error Err) }
  | Except.ok EPC =>
    let ES := ExecutionSession.mk EPC
    let calls := calls ++ [Call.ExecutionSession_new, Call.EPCIndirectionUtils_Create]
    match o.EPCIU with
    | Except.error Err => { calls := calls, value := Outcome.returned (Except.error Err) }
    | Except.ok EPCIU =>
      let calls := calls ++ [Call.setUpInProcessLCTMReentryViaEPCIU]
      match o.Reentry with
      | some Err => { calls := calls, value := Outcome.returned (Except.error Err) }
      | none =>
        let JTMB := JITTargetMachineBuilder.mk ES.EPC.TargetTriple
        let calls := calls ++
          [Call.JITTargetMachineBuilder_new ES.EPC.TargetTriple,
           Call.getDefaultDataLayoutForTarget]
        match o.DL with
        | Except.error Err => { calls := calls, value := Outcome.returned (Except.error Err) }
        | Except.ok DL =>
          let r := KaleidoscopeJIT.new o.ProcessSymbols ES EPCIU JTMB DL
          { calls := calls ++ r.calls,
            value :=
              match r.value with
              | Outcome.returned J => Outcome.returned (Except.ok J)
              | Outcome.unreachable Msg => Outcome.unreachable Msg
              | Outcome.exited Status => Outcome.exited Status }

/-- The getter `KaleidoscopeJIT::getDataLayout` (line 181). -/
def KaleidoscopeJIT.getDataLayout (J : KaleidoscopeJIT) : DataLayout :=
  J.DL

/-- The getter `KaleidoscopeJIT::getMainJITDylib` (line 183). -/
def KaleidoscopeJIT.getMainJITDylib (J : KaleidoscopeJIT) : JITDylib :=
  J.MainJD

/-- The method `add` of an `IRLayer` of the library, a collaborator: what the layer
answers when a module is added under a tracker. -/
abbrev LayerAdd := LayerKind → ResourceTracker → ThreadSafeModule → Option ErrorInfo

/-- The method `KaleidoscopeJIT::addModule` (lines 185-190); a null tracker is
`none`. -/
def KaleidoscopeJIT.addModule (Add : LayerAdd) (J : KaleidoscopeJIT) (TSM : ThreadSafeModule)
    (RT : Option ResourceTracker) : Traced (Option ErrorInfo) :=
  let RT :=
    match RT with
    | none => J.MainJD.getDefaultResourceTracker
    | some RT => RT
  { calls := [Call.Layer_add LayerKind.Compile RT TSM],
    value := Add LayerKind.Compile RT TSM }

/-- The method `lookup` of the session, a collaborator: the address a symbol of a
Dylib resolves to, or an error. -/
abbrev SessionLookup := String → SymbolStringPtr → Except ErrorInfo Nat

/-- The method `KaleidoscopeJIT::lookup` (lines 192-195). -/
def KaleidoscopeJIT.lookup (Mangle : Mangler) (Lookup : SessionLookup) (J : KaleidoscopeJIT)
    (Name : String) : Traced (Except ErrorInfo Nat) :=
  let Sym := Mangle J.DL Name
  { calls := [Call.ES_lookup J.MainJD.Name Sym], value := Lookup J.MainJD.Name Sym }

/-! ## The optimization pipeline -/

/-- What a pass does to a function, a collaborator. -/
abbrev PassSemantics := PassKind → IRFunction → IRFunction

/-- The legacy function pass manager: the passes in the order they were added. -/
structure FunctionPassManager where
  ModuleID : String
  Passes : List PassKind
  Initialized : Bool
deriving DecidableEq, Repr

/-- A new pass manager for a module (line 202). -/
def FunctionPassManager.new (M : Module) : FunctionPassManager :=
  { ModuleID := M.ModuleID, Passes := [], Initialized := false }

/-- The method `FunctionPassManager::add`: the pass goes to the end of the pipeline. -/
def FunctionPassManager.add (FPM : FunctionPassManager) (P : PassKind) : FunctionPassManager :=
  { FPM with Passes := FPM.Passes ++ [P] }

/-- The method `FunctionPassManager::doInitialization`. -/
def FunctionPassManager.doInitialization (FPM : FunctionPassManager) : FunctionPassManager :=
  { FPM with Initialized := true }

/-- The method `FunctionPassManager::run`: every pass of the pipeline on the function,
in pipeline order. -/
def FunctionPassManager.run (Sem : PassSemantics) (FPM : FunctionPassManager)
    (F : IRFunction) : IRFunction :=
  FPM.Passes.foldl (fun f P => Sem P f) F

/-- The loop `for (auto &F : M) FPM->run(F);` (lines 210-211). -/
def runOnFunctions (Sem : PassSemantics) (FPM : FunctionPassManager) :
    List IRFunction → Traced (List IRFunction)
  | [] => { calls := [], value := [] }
  | F :: Fs =>
    let r := runOnFunctions Sem FPM Fs
    { calls := Call.FPM_run F :: r.calls, value := FPM.run Sem F :: r.value }

/-- The body of the lambda handed to `withModuleDo` (lines 201-212), with the pass
manager it ends with. -/
def optimizeModule.body (Sem : PassSemantics) (M : Module) :
    Traced (Module × FunctionPassManager) :=
  let FPM := FunctionPassManager.new M
  let FPM := FPM.add PassKind.InstructionCombining
  let FPM := FPM.add PassKind.Reassociate
  let FPM := FPM.add PassKind.GVN
  let FPM := FPM.add PassKind.CFGSimplification
  let FPM := FPM.doInitialization
  let r := runOnFunctions Sem FPM M.Functions
  { calls :=
      [Call.FPM_new M.ModuleID, Call.FPM_add PassKind.InstructionCombining,
       Call.FPM_add PassKind.Reassociate, Call.FPM_add PassKind.GVN,
       Call.FPM_add PassKind.CFGSimplification, Call.FPM_doInitialization] ++ r.calls,
    value := ({ M with Functions := r.value }, FPM) }

/-- The function `KaleidoscopeJIT::optimizeModule` (lines 198-214): the lambda runs
on the wrapped module in place and the wrapper is returned as a success. -/
def KaleidoscopeJIT.optimizeModule (Sem : PassSemantics) (TSM : ThreadSafeModule)
    (_R : MaterializationResponsibility) : Traced (Except ErrorInfo ThreadSafeModule) :=
  let r := optimizeModule.body Sem TSM.M
  { calls := r.calls, value := Except.ok { TSM with M := r.value.1 } }

/-! ## Histories of a Dylib and the functions of the file -/

/-- Modelled from the spec: what can happen to a Dylib between two declarations: a
function is declared through some AST layer, a tracker is revoked, or the entry of a
symbol moves on in its lifecycle (section 3). -/
inductive DylibStep where
  | add (L : KaleidoscopeASTLayer) (RT : ResourceTracker) (F : FunctionAST)
  | remove (RT : ResourceTracker)
  | setState (Sym : SymbolStringPtr) (State : SymbolState)
deriving DecidableEq

/-- Modelled from the spec: the entry of a symbol moves to a lifecycle state; the
entry stays in the table. -/
def JITDylib.setState (JD : JITDylib) (Sym : SymbolStringPtr) (State : SymbolState) :
    JITDylib :=
  { JD with
    Symbols := JD.Symbols.map
      (fun kv => if kv.1 == Sym then (kv.1, { kv.2 with State := State }) else kv) }

/-- One step of a history. -/
def DylibStep.apply (Mangle : Mangler) (JD : JITDylib) : DylibStep → JITDylib
  | DylibStep.add L RT F => (L.add Mangle RT F JD).value.2
  | DylibStep.remove RT => JD.remove RT
  | DylibStep.setState Sym State => JD.setState Sym State

/-- A history: the steps from left to right. -/
def runSteps (Mangle : Mangler) (JD : JITDylib) (steps : List DylibStep) : JITDylib :=
  steps.foldl (DylibStep.apply Mangle) JD

/-- The collaborators of the file, gathered. -/
structure Collaborators where
  Mangle : Mangler
  irgen : IRGen
  Add : LayerAdd
  Lookup : SessionLookup
  Sem : PassSemantics

/-- The functions of the file that have a body, each with its arguments. -/
inductive Entry where
  | FunctionAST_new (Proto : PrototypeAST) (Body : ExprAST)
  | MU_getName (U : KaleidoscopeASTMaterializationUnit)
  | ASTLayer_new (BaseLayer : LayerKind) (DL : DataLayout)
  | JIT_getDataLayout (J : KaleidoscopeJIT)
  | JIT_getMainJITDylib (J : KaleidoscopeJIT)
  | MU_new (L : KaleidoscopeASTLayer) (F : FunctionAST)
  | MU_materialize (U : KaleidoscopeASTMaterializationUnit) (R : MaterializationResponsibility)
  | MU_discard (U : KaleidoscopeASTMaterializationUnit) (JD : JITDylib) (Sym : SymbolStringPtr)
  | ASTLayer_add (L : KaleidoscopeASTLayer) (RT : ResourceTracker) (F : FunctionAST)
      (JD : JITDylib)
  | ASTLayer_emit (L : KaleidoscopeASTLayer) (MR : MaterializationResponsibility)
      (F : Option FunctionAST)
  | ASTLayer_getInterface (L : KaleidoscopeASTLayer) (F : FunctionAST)
  | JIT_handleLazyCallThroughError
  | JIT_new (ProcessSymbols : Except ErrorInfo DefinitionGenerator) (ES : ExecutionSession)
      (EPCIU : EPCIndirectionUtils) (JTMB : JITTargetMachineBuilder) (DL : DataLayout)
  | JIT_destroy (J : KaleidoscopeJIT) (o : TeardownOutcomes)
  | JIT_Create (o : SetupOutcomes)
  | JIT_addModule (J : KaleidoscopeJIT) (TSM : ThreadSafeModule) (RT : Option ResourceTracker)
  | JIT_lookup (J : KaleidoscopeJIT) (Name : String)
  | JIT_optimizeModule (TSM : ThreadSafeModule) (R : MaterializationResponsibility)

/-- The calls a function of the file makes, in program order; `none` where its
behaviour is undefined (a null function dereferenced). -/
def Entry.calls (c : Collaborators) : Entry → Option (List Call)
  | Entry.FunctionAST_new _ _ => some []
  | Entry.MU_getName _ => some []
  | Entry.ASTLayer_new _ _ => some []
  | Entry.JIT_getDataLayout _ => some []
  | Entry.JIT_getMainJITDylib _ => some []
  | Entry.MU_new _ _ => some []
  | Entry.MU_materialize U R => (U.materialize c.irgen R).map (fun r => r.calls)
  | Entry.MU_discard U JD Sym => some (U.discard JD Sym).calls
  | Entry.ASTLayer_add L RT F JD => some (L.add c.Mangle RT F JD).calls
  | Entry.ASTLayer_emit L MR F => (L.emit c.irgen MR F).map (fun r => r.calls)
  | Entry.ASTLayer_getInterface _ _ => some []
  | Entry.JIT_handleLazyCallThroughError => some []
  | Entry.JIT_new P ES EPCIU JTMB DL => some (KaleidoscopeJIT.new P ES EPCIU JTMB DL).calls
  | Entry.JIT_destroy J o => some (J.destroy o).calls
  | Entry.JIT_Create o => some (KaleidoscopeJIT.Create o).calls
  | Entry.JIT_addModule J TSM RT => some (J.addModule c.Add TSM RT).calls
  | Entry.JIT_lookup J Name => some (J.lookup c.Mangle c.Lookup Name).calls
  | Entry.JIT_optimizeModule TSM R => some (KaleidoscopeJIT.optimizeModule c.Sem TSM R).calls

/-- Whether a call is the AST-to-IR conversion `irgenAndTakeOwnership`. -/
def Call.isIrgen : Call → Bool
  | Call.irgenAndTakeOwnership _ _ => true
  | _ => false

/-- Whether a call is the `emit` of a base layer. -/
def Call.isBaseEmit : Call → Bool
  | Call.BaseLayer_emit _ _ _ => true
  | _ => false

/-- Whether a call is the `emit` of the AST layer. -/
def Call.isASTLayerEmit : Call → Bool
  | Call.ASTLayer_emit _ _ => true
  | _ => false

/-- Whether a call creates a lazy call-through manager. -/
def Call.isCreateLCTM : Call → Bool
  | Call.createLazyCallThroughManager _ => true
  | _ => false

/-- A mangler that puts the global marker of the layout before the name. -/
def markerMangle : Mangler :=
  fun DL Name => DL.GlobalMarker ++ Name

/-- A data layout with the marker `_`. -/
def exampleDL : DataLayout :=
  { Desc := "e-m:o-i64:64", GlobalMarker := "_" }

/-- An AST layer over the compile-on-demand layer. -/
def exampleLayer : KaleidoscopeASTLayer :=
  { BaseLayer := LayerKind.CompileOnDemand, DL := exampleDL }

/-- The function `square(x) = x * x`. -/
def squareAST : FunctionAST :=
  { Proto := { Name := "square", Args := ["x"] },
    Body := ExprAST.node "*" (ExprAST.leaf "x") (ExprAST.leaf "x") }

/-- A second function named `square`, with another body. -/
def squareAgainAST : FunctionAST :=
  { Proto := { Name := "square", Args := ["y"] },
    Body := ExprAST.node "+" (ExprAST.leaf "y") (ExprAST.leaf "y") }

/-- An IR generator that makes a module of one function with an empty body. -/
def exampleIRGen : IRGen :=
  fun F Suffix => { M := { ModuleID := F.getName ++ Suffix,
                           Functions := [{ Name := F.getName, Insts := [] }] } }

/-- A request for the symbol `_square`. -/
def exampleMR : MaterializationResponsibility :=
  { Symbols := ["_square"] }

/-- Setup outcomes in which every step succeeds; the indirection utilities come
without a lazy call-through manager, as they are before one is created. -/
def allSucceed : SetupOutcomes :=
  { EPC := Except.ok { TargetTriple := "x86_64-unknown-linux-gnu" },
    EPCIU := Except.ok { LCTM := none },
    Reentry := none,
    DL := Except.ok exampleDL,
    ProcessSymbols := Except.ok { GlobalMarker := "_" } }

/-- The calls that report an error to the sink of the session, for an optional error. -/
def reportCalls (Err : Option ErrorInfo) : List Call :=
  match Err with
  | some e => [Call.reportError e]
  | none => []

/-- The main Dylib after `square` has been declared once under tracker 1. -/
def declaredOnce : JITDylib :=
  (exampleLayer.add markerMangle (ResourceTracker.mk 1) squareAST (JITDylib.bare "<main>")).value.2

/-- A history that revokes another tracker and lets the entry of `_square` start to
materialize. -/
def exampleSteps : List DylibStep :=
  [DylibStep.remove (ResourceTracker.mk 7),
   DylibStep.setState "_square" SymbolState.materializing]

/-- The unit built from `square`. -/
def squareUnit : KaleidoscopeASTMaterializationUnit :=
  KaleidoscopeASTMaterializationUnit.new markerMangle exampleLayer squareAST

/-! ## Theorems -/

/-! ### The interface -/

theorem getInterface_symbols (Mangle : Mangler) (L : KaleidoscopeASTLayer) (F : FunctionAST) :
    (L.getInterface Mangle F).SymbolFlags =
      [(Mangle L.DL F.getName, {FlagNames.Exported} ∪ {FlagNames.Callable})] := by
  simp [KaleidoscopeASTLayer.getInterface, SymbolFlagsMap.assign]

theorem new_getSymbols (Mangle : Mangler) (L : KaleidoscopeASTLayer) (F : FunctionAST) :
    (KaleidoscopeASTMaterializationUnit.new Mangle L F).getSymbols =
      [(Mangle L.DL F.getName, {FlagNames.Exported} ∪ {FlagNames.Callable})] := by
  simp [KaleidoscopeASTMaterializationUnit.new, KaleidoscopeASTMaterializationUnit.getSymbols,
    getInterface_symbols]

/-- C2: the interface `getInterface` computes for a function, which is the interface
of the materialization unit built from it, has exactly one entry; its key is the
mangling of the name of the function under the data layout of the layer, its flags
are exactly `Exported` and `Callable`, and it has no initializer symbol. -/
theorem getInterface_single_exported_callable (Mangle : Mangler) (L : KaleidoscopeASTLayer)
    (F : FunctionAST) :
    (KaleidoscopeASTMaterializationUnit.new Mangle L F).Iface = L.getInterface Mangle F
    ∧ (∃ Flags : JITSymbolFlags,
        (L.getInterface Mangle F).SymbolFlags = [(Mangle L.DL F.getName, Flags)]
        ∧ ∀ fl : FlagNames, fl ∈ Flags ↔ (fl = FlagNames.Exported ∨ fl = FlagNames.Callable))
    ∧ (L.getInterface Mangle F).SymbolFlags.length = 1
    ∧ (L.getInterface Mangle F).InitSymbol = none := by
  refine ⟨rfl, ⟨_, getInterface_symbols Mangle L F, ?_⟩, ?_, rfl⟩
  · intro fl
    simp
  · simp [getInterface_symbols]

/-! ### Duplicate declarations -/

theorem isDeclared_of_mem (JD : JITDylib) (k : SymbolStringPtr) (e : SymbolStringPtr × SymbolTableEntry)
    (he : e ∈ JD.Symbols) (hk : e.1 = k) : JD.isDeclared k = true := by
  simp only [JITDylib.isDeclared, List.any_eq_true]
  exact ⟨e, he, by simp [hk]⟩

theorem add_value_declared (Mangle : Mangler) (L : KaleidoscopeASTLayer) (RT : ResourceTracker)
    (F : FunctionAST) (JD : JITDylib) (h : JD.isDeclared (Mangle L.DL F.getName) = true) :
    (L.add Mangle RT F JD).value =
      (some (ErrorInfo.DuplicateDefinition (Mangle L.DL F.getName)), JD) := by
  simp [KaleidoscopeASTLayer.add, JITDylib.define, new_getSymbols, h]

theorem add_value_fresh (Mangle : Mangler) (L : KaleidoscopeASTLayer) (RT : ResourceTracker)
    (F : FunctionAST) (JD : JITDylib) (h : JD.isDeclared (Mangle L.DL F.getName) = false) :
    (L.add Mangle RT F JD).value =
      (none,
        { JD with
          Symbols := JD.Symbols ++
            [(Mangle L.DL F.getName,
              SymbolTableEntry.mk ({FlagNames.Exported} ∪ {FlagNames.Callable})
                SymbolState.declared RT)]
          Pending := JD.Pending ++ [(RT, KaleidoscopeASTMaterializationUnit.new Mangle L F)] }) := by
  simp [KaleidoscopeASTLayer.add, JITDylib.define, new_getSymbols, h]

theorem add_success_entry (Mangle : Mangler) (L : KaleidoscopeASTLayer) (RT : ResourceTracker)
    (F : FunctionAST) (JD0 JD1 : JITDylib)
    (hadd : (L.add Mangle RT F JD0).value = (none, JD1)) :
    ∃ e ∈ JD1.Symbols, e.1 = Mangle L.DL F.getName ∧ e.2.RT = RT := by
  cases h : JD0.isDeclared (Mangle L.DL F.getName) with
  | true =>
    rw [add_value_declared Mangle L RT F JD0 h] at hadd
    simp at hadd
  | false =>
    rw [add_value_fresh Mangle L RT F JD0 h] at hadd
    simp only [Prod.mk.injEq, true_and] at hadd
    subst hadd
    exact ⟨(Mangle L.DL F.getName,
      SymbolTableEntry.mk ({FlagNames.Exported} ∪ {FlagNames.Callable})
        SymbolState.declared RT), by simp, rfl, rfl⟩

theorem add_keeps_entry (Mangle : Mangler) (L : KaleidoscopeASTLayer) (RT : ResourceTracker)
    (F : FunctionAST) (JD : JITDylib) (e : SymbolStringPtr × SymbolTableEntry)
    (he : e ∈ JD.Symbols) : e ∈ (L.add Mangle RT F JD).value.2.Symbols := by
  cases h : JD.isDeclared (Mangle L.DL F.getName) with
  | true =>
    rw [add_value_declared Mangle L RT F JD h]
    exact he
  | false =>
    rw [add_value_fresh Mangle L RT F JD h]
    simp [he]

theorem step_keeps_entry (Mangle : Mangler) (k : SymbolStringPtr) (RT1 : ResourceTracker)
    (s : DylibStep) (hs : s ≠ DylibStep.remove RT1) (JD : JITDylib)
    (h : ∃ e ∈ JD.Symbols, e.1 = k ∧ e.2.RT = RT1) :
    ∃ e ∈ (s.apply Mangle JD).Symbols, e.1 = k ∧ e.2.RT = RT1 := by
  obtain ⟨e, he, hk, hrt⟩ := h
  cases s with
  | add L RT F => exact ⟨e, add_keeps_entry Mangle L RT F JD e he, hk, hrt⟩
  | remove RT =>
    have hne : RT1 ≠ RT := by
      intro hEq
      exact hs (by rw [hEq])
    refine ⟨e, ?_, hk, hrt⟩
    simp only [DylibStep.apply, JITDylib.remove, List.mem_filter]
    refine ⟨he, ?_⟩
    simp [hrt, hne]
  | setState Sym State =>
    by_cases hsym : e.1 = Sym
    · refine ⟨(e.1, { e.2 with State := State }), ?_, hk, hrt⟩
      simp only [DylibStep.apply, JITDylib.setState, List.mem_map]
      exact ⟨e, he, by simp [hsym]⟩
    · refine ⟨e, ?_, hk, hrt⟩
      simp only [DylibStep.apply, JITDylib.setState, List.mem_map]
      exact ⟨e, he, by simp [hsym]⟩

theorem runSteps_keeps_entry (Mangle : Mangler) (k : SymbolStringPtr) (RT1 : ResourceTracker)
    (steps : List DylibStep) (hs : ∀ s ∈ steps, s ≠ DylibStep.remove RT1) (JD : JITDylib)
    (h : ∃ e ∈ JD.Symbols, e.1 = k ∧ e.2.RT = RT1) :
    ∃ e ∈ (runSteps Mangle JD steps).Symbols, e.1 = k ∧ e.2.RT = RT1 := by
  induction steps generalizing JD with
  | nil => exact h
  | cons s rest ih =>
    have h1 := step_keeps_entry Mangle k RT1 s (hs s (by simp)) JD h
    have h2 := ih (fun t ht => hs t (by simp [ht])) (s.apply Mangle JD) h1
    simpa [runSteps] using h2

/-- C1: a duplicate declaration is rejected atomically. If `add` of a first function
succeeds under a tracker of a Dylib, then after any history of the Dylib that does
not revoke that tracker (further declarations, revocations of other trackers,
lifecycle moves of entries), `add` of a second function whose name mangles to the
same symbol returns the duplicate-definition error for that symbol and leaves the
Dylib exactly as it was before the call. -/
theorem add_duplicate_rejected (Mangle : Mangler) (L1 L2 : KaleidoscopeASTLayer)
    (RT1 RT2 : ResourceTracker) (F1 F2 : FunctionAST) (JD0 JD1 : JITDylib)
    (steps : List DylibStep)
    (hname : Mangle L1.DL F1.getName = Mangle L2.DL F2.getName)
    (hadd : (L1.add Mangle RT1 F1 JD0).value = (none, JD1))
    (hkeep : ∀ s ∈ steps, s ≠ DylibStep.remove RT1) :
    (L2.add Mangle RT2 F2 (runSteps Mangle JD1 steps)).value =
      (some (ErrorInfo.DuplicateDefinition (Mangle L2.DL F2.getName)),
        runSteps Mangle JD1 steps) := by
  have h1 := add_success_entry Mangle L1 RT1 F1 JD0 JD1 hadd
  obtain ⟨e, he, hk, _⟩ :=
    runSteps_keeps_entry Mangle (Mangle L1.DL F1.getName) RT1 steps hkeep JD1 h1
  exact add_value_declared Mangle L2 RT2 F2 _
    (isDeclared_of_mem _ _ e he (hk.trans hname))

/-- C1 at a concrete input: `square` is declared under tracker 1 in a bare Dylib,
tracker 7 is revoked and the entry starts to materialize; declaring a second
`square` under tracker 2 is rejected and the Dylib is unchanged. -/
theorem add_duplicate_rejected_witness :
    (exampleLayer.add markerMangle (ResourceTracker.mk 2) squareAgainAST
        (runSteps markerMangle declaredOnce exampleSteps)).value =
      (some (ErrorInfo.DuplicateDefinition (markerMangle exampleLayer.DL squareAgainAST.getName)),
        runSteps markerMangle declaredOnce exampleSteps) :=
  add_duplicate_rejected markerMangle exampleLayer exampleLayer (ResourceTracker.mk 1)
    (ResourceTracker.mk 2) squareAST squareAgainAST (JITDylib.bare "<main>") declaredOnce
    exampleSteps rfl rfl (by decide)

/-! ### Declaring and materializing -/

/-- C4: for a unit that holds a function `F` and a request `R`, `materialize` enters
the layer's `emit` with `R` and `F`, converts `F` once with the empty suffix, hands
the resulting module with the same `R` to the base layer's `emit` once, and leaves
the unit without a function. -/
theorem materialize_converts_once (irgen : IRGen) (U : KaleidoscopeASTMaterializationUnit)
    (R : MaterializationResponsibility) (F : FunctionAST) (hF : U.F = some F) :
    ∃ r, U.materialize irgen R = some r
      ∧ r.calls = [Call.ASTLayer_emit R (some F), Call.irgenAndTakeOwnership F "",
          Call.BaseLayer_emit U.L.BaseLayer R (irgen F "")]
      ∧ (r.calls.filter Call.isIrgen).length = 1
      ∧ (r.calls.filter Call.isBaseEmit).length = 1
      ∧ r.value.F = none
      ∧ r.value.Iface = U.Iface ∧ r.value.L = U.L := by
  refine ⟨{ calls := [Call.ASTLayer_emit R (some F), Call.irgenAndTakeOwnership F "",
              Call.BaseLayer_emit U.L.BaseLayer R (irgen F "")],
            value := { U with F := none } }, ?_, rfl, ?_, ?_, rfl, rfl, rfl⟩
  · simp [KaleidoscopeASTMaterializationUnit.materialize, KaleidoscopeASTLayer.emit, hF]
  · simp [Call.isIrgen]
  · simp [Call.isBaseEmit]

/-- C4 at a concrete input: the unit built from `square` is materialized. -/
theorem materialize_converts_once_witness :
    squareUnit.F = some squareAST ∧
    ∃ r, squareUnit.materialize exampleIRGen exampleMR = some r
      ∧ r.calls = [Call.ASTLayer_emit exampleMR (some squareAST),
          Call.irgenAndTakeOwnership squareAST "",
          Call.BaseLayer_emit squareUnit.L.BaseLayer exampleMR (exampleIRGen squareAST "")]
      ∧ (r.calls.filter Call.isIrgen).length = 1
      ∧ (r.calls.filter Call.isBaseEmit).length = 1
      ∧ r.value.F = none
      ∧ r.value.Iface = squareUnit.Iface ∧ r.value.L = squareUnit.L :=
  ⟨rfl, materialize_converts_once exampleIRGen squareUnit exampleMR squareAST rfl⟩

/-- C5: for every unit, Dylib and symbol, `discard` ends in `llvm_unreachable` with
its message: it never returns normally, so it is not a no-op, and before that it
calls nothing, so neither the unit nor the Dylib is changed. -/
theorem discard_is_fatal (U : KaleidoscopeASTMaterializationUnit) (JD : JITDylib)
    (Sym : SymbolStringPtr) :
    (U.discard JD Sym).value = Outcome.unreachable "Kaleidoscope functions are not overridable"
    ∧ (∀ s, (U.discard JD Sym).value ≠ Outcome.returned s)
    ∧ (U.discard JD Sym).value ≠ Outcome.returned (U, JD)
    ∧ (U.discard JD Sym).calls = [] := by
  refine ⟨rfl, ?_, ?_, rfl⟩
  · intro s h
    simp [KaleidoscopeASTMaterializationUnit.discard] at h
  · intro h
    simp [KaleidoscopeASTMaterializationUnit.discard] at h

/-! ### What the functions of the file call -/

theorem runOnFunctions_calls (Sem : PassSemantics) (FPM : FunctionPassManager)
    (Fs : List IRFunction) : (runOnFunctions Sem FPM Fs).calls = Fs.map Call.FPM_run := by
  induction Fs with
  | nil => rfl
  | cons F rest ih => simp [runOnFunctions, ih]

theorem runOnFunctions_value (Sem : PassSemantics) (FPM : FunctionPassManager)
    (Fs : List IRFunction) : (runOnFunctions Sem FPM Fs).value = Fs.map (FPM.run Sem) := by
  induction Fs with
  | nil => rfl
  | cons F rest ih => simp [runOnFunctions, ih]

theorem new_calls_quiet (P : Except ErrorInfo DefinitionGenerator) (ES : ExecutionSession)
    (EPCIU : EPCIndirectionUtils) (JTMB : JITTargetMachineBuilder) (DL : DataLayout) :
    (KaleidoscopeJIT.new P ES EPCIU JTMB DL).calls.all
      (fun call => !call.isIrgen && !call.isASTLayerEmit && !call.isBaseEmit
        && !call.isCreateLCTM) = true := by
  cases P <;>
    simp [KaleidoscopeJIT.new, cantFail, Call.isIrgen, Call.isASTLayerEmit, Call.isBaseEmit,
      Call.isCreateLCTM]

theorem Create_calls_quiet (o : SetupOutcomes) :
    (KaleidoscopeJIT.Create o).calls.all
      (fun call => !call.isIrgen && !call.isASTLayerEmit && !call.isBaseEmit
        && !call.isCreateLCTM) = true := by
  obtain ⟨EPC, EPCIU, Re, DL, PS⟩ := o
  cases EPC <;> cases EPCIU <;> cases Re <;> cases DL <;> cases PS <;>
    simp [KaleidoscopeJIT.Create, KaleidoscopeJIT.new, cantFail, Call.isIrgen,
      Call.isASTLayerEmit, Call.isBaseEmit, Call.isCreateLCTM]

theorem destroy_calls_quiet (J : KaleidoscopeJIT) (o : TeardownOutcomes) :
    (J.destroy o).calls.all
      (fun call => !call.isIrgen && !call.isASTLayerEmit && !call.isBaseEmit
        && !call.isCreateLCTM) = true := by
  obtain ⟨e1, e2⟩ := o
  cases e1 <;> cases e2 <;>
    simp [KaleidoscopeJIT.destroy, Call.isIrgen, Call.isASTLayerEmit, Call.isBaseEmit,
      Call.isCreateLCTM]

theorem optimizeModule_calls_quiet (Sem : PassSemantics) (TSM : ThreadSafeModule)
    (R : MaterializationResponsibility) :
    (KaleidoscopeJIT.optimizeModule Sem TSM R).calls.all
      (fun call => !call.isIrgen && !call.isASTLayerEmit && !call.isBaseEmit
        && !call.isCreateLCTM) = true := by
  simp [KaleidoscopeJIT.optimizeModule, optimizeModule.body, runOnFunctions_calls,
    Call.isIrgen, Call.isASTLayerEmit, Call.isBaseEmit, Call.isCreateLCTM]

theorem quiet_of_all (l : List Call)
    (h : l.all (fun call => !call.isIrgen && !call.isASTLayerEmit && !call.isBaseEmit
        && !call.isCreateLCTM) = true) (call : Call) (hc : call ∈ l) :
    call.isIrgen = false ∧ call.isASTLayerEmit = false ∧ call.isBaseEmit = false
      ∧ call.isCreateLCTM = false := by
  have h1 := List.all_eq_true.mp h call hc
  simpa [and_assoc] using h1

theorem entry_calls_quiet (c : Collaborators) (e : Entry) (calls : List Call)
    (h : Entry.calls c e = some calls)
    (hemit : ∀ L MR F, e ≠ Entry.ASTLayer_emit L MR F)
    (hmat : ∀ U R, e ≠ Entry.MU_materialize U R) :
    calls.all (fun call => !call.isIrgen && !call.isASTLayerEmit && !call.isBaseEmit
        && !call.isCreateLCTM) = true := by
  cases e with
  | FunctionAST_new Proto Body => simp [Entry.calls] at h; subst h; rfl
  | MU_getName U => simp [Entry.calls] at h; subst h; rfl
  | ASTLayer_new B DL => simp [Entry.calls] at h; subst h; rfl
  | JIT_getDataLayout J => simp [Entry.calls] at h; subst h; rfl
  | JIT_getMainJITDylib J => simp [Entry.calls] at h; subst h; rfl
  | MU_new L F => simp [Entry.calls] at h; subst h; rfl
  | MU_materialize U R => exact absurd rfl (hmat U R)
  | MU_discard U JD Sym => simp [Entry.calls] at h; subst h; rfl
  | ASTLayer_add L RT F JD =>
    simp [Entry.calls] at h; subst h
    simp [KaleidoscopeASTLayer.add, Call.isIrgen, Call.isASTLayerEmit, Call.isBaseEmit,
      Call.isCreateLCTM]
  | ASTLayer_emit L MR F => exact absurd rfl (hemit L MR F)
  | ASTLayer_getInterface L F => simp [Entry.calls] at h; subst h; rfl
  | JIT_handleLazyCallThroughError => simp [Entry.calls] at h; subst h; rfl
  | JIT_new P ES EPCIU JTMB DL =>
    simp [Entry.calls] at h; subst h; exact new_calls_quiet P ES EPCIU JTMB DL
  | JIT_destroy J o => simp [Entry.calls] at h; subst h; exact destroy_calls_quiet J o
  | JIT_Create o => simp [Entry.calls] at h; subst h; exact Create_calls_quiet o
  | JIT_addModule J TSM RT =>
    simp [Entry.calls] at h; subst h
    simp [KaleidoscopeJIT.addModule, Call.isIrgen, Call.isASTLayerEmit, Call.isBaseEmit,
      Call.isCreateLCTM]
  | JIT_lookup J Name =>
    simp [Entry.calls] at h; subst h
    simp [KaleidoscopeJIT.lookup, Call.isIrgen, Call.isASTLayerEmit, Call.isBaseEmit,
      Call.isCreateLCTM]
  | JIT_optimizeModule TSM R =>
    simp [Entry.calls] at h; subst h; exact optimizeModule_calls_quiet c.Sem TSM R

theorem emit_calls_no_ASTLayer_emit (irgen : IRGen) (L : KaleidoscopeASTLayer)
    (MR : MaterializationResponsibility) (F : Option FunctionAST) (r : Traced Unit)
    (h : L.emit irgen MR F = some r) (call : Call) (hc : call ∈ r.calls) :
    call.isASTLayerEmit = false := by
  cases F with
  | none => simp [KaleidoscopeASTLayer.emit] at h
  | some f =>
    simp [KaleidoscopeASTLayer.emit] at h
    subst h
    simp at hc
    rcases hc with rfl | rfl <;> rfl

/-- C3: declaring never compiles. For every tracker and function, `add` makes one
call, the `define` of the Dylib, with the unit built from the function, whose
interface is the computed one and which still owns the function; it calls neither
`irgenAndTakeOwnership` nor an `emit`. Among the functions of the file, the
conversion is called only while `KaleidoscopeASTLayer::emit` runs (entered directly
or from `materialize`), and `emit` is called only by `materialize`, as its first
call. -/
theorem add_never_compiles (c : Collaborators) :
    (∀ (L : KaleidoscopeASTLayer) (RT : ResourceTracker) (F : FunctionAST) (JD : JITDylib),
      (L.add c.Mangle RT F JD).calls =
          [Call.define (KaleidoscopeASTMaterializationUnit.new c.Mangle L F) RT]
      ∧ (KaleidoscopeASTMaterializationUnit.new c.Mangle L F).Iface = L.getInterface c.Mangle F
      ∧ (KaleidoscopeASTMaterializationUnit.new c.Mangle L F).F = some F
      ∧ ∀ call ∈ (L.add c.Mangle RT F JD).calls,
          call.isIrgen = false ∧ call.isBaseEmit = false ∧ call.isASTLayerEmit = false)
    ∧ (∀ (e : Entry) (calls : List Call), Entry.calls c e = some calls →
        ∀ call ∈ calls, call.isIrgen = true →
          (∃ L MR F, e = Entry.ASTLayer_emit L MR F) ∨ (∃ U R, e = Entry.MU_materialize U R))
    ∧ (∀ (e : Entry) (calls : List Call), Entry.calls c e = some calls →
        ∀ call ∈ calls, call.isASTLayerEmit = true → ∃ U R, e = Entry.MU_materialize U R)
    ∧ (∀ (U : KaleidoscopeASTMaterializationUnit) (R : MaterializationResponsibility)
        (r : Traced KaleidoscopeASTMaterializationUnit), U.materialize c.irgen R = some r →
        ∃ r', U.L.emit c.irgen R U.F = some r'
          ∧ r.calls = Call.ASTLayer_emit R U.F :: r'.calls) := by
  refine ⟨?_, ?_, ?_, ?_⟩
  · intro L RT F JD
    refine ⟨rfl, rfl, rfl, ?_⟩
    intro call hc
    simp [KaleidoscopeASTLayer.add] at hc
    subst hc
    exact ⟨rfl, rfl, rfl⟩
  · intro e calls h call hc hir
    by_contra hno
    push_neg at hno
    have hq := quiet_of_all calls (entry_calls_quiet c e calls h hno.1 hno.2) call hc
    rw [hq.1] at hir
    exact Bool.noConfusion hir
  · intro e calls h call hc hem
    by_contra hno
    push_neg at hno
    by_cases hemit : ∃ L MR F, e = Entry.ASTLayer_emit L MR F
    · obtain ⟨L, MR, F, rfl⟩ := hemit
      cases hr : L.emit c.irgen MR F with
      | none => simp [Entry.calls, hr] at h
      | some r =>
        simp [Entry.calls, hr] at h
        subst h
        have := emit_calls_no_ASTLayer_emit c.irgen L MR F r hr call hc
        rw [this] at hem
        exact Bool.noConfusion hem
    · push_neg at hemit
      have hq := quiet_of_all calls (entry_calls_quiet c e calls h hemit hno) call hc
      rw [hq.2.1] at hem
      exact Bool.noConfusion hem
  · intro U R r h
    cases hE : U.L.emit c.irgen R U.F with
    | none => simp [KaleidoscopeASTMaterializationUnit.materialize, hE] at h
    | some r' =>
      simp [KaleidoscopeASTMaterializationUnit.materialize, hE] at h
      subst h
      exact ⟨r', rfl, rfl⟩

/-! ### Creating the engine -/

/-- C7, the code at the failing input: when every setup step succeeds, `Create`
returns an engine whose compile-on-demand layer was built without a lazy
call-through manager, so not with one that has `handleLazyCallThroughError` as its
handler; the calls `Create` made are listed. For no outcomes does `Create` call
`createLazyCallThroughManager`: the layer of a returned engine gets the manager of
the indirection utilities exactly as `EPCIndirectionUtils::Create` returned them.
The handler itself writes its message and exits with status 1. -/
theorem Create_registers_no_handler :
    (∃ J, (KaleidoscopeJIT.Create allSucceed).value = Outcome.returned (Except.ok J)
      ∧ J.CODLayerLCTM = none
      ∧ J.CODLayerLCTM ≠
          some (LazyCallThroughManager.mk HandlerAddr.handleLazyCallThroughError))
    ∧ (KaleidoscopeJIT.Create allSucceed).calls =
        [Call.SelfExecutorProcessControl_Create, Call.ExecutionSession_new,
         Call.EPCIndirectionUtils_Create, Call.setUpInProcessLCTMReentryViaEPCIU,
         Call.JITTargetMachineBuilder_new "x86_64-unknown-linux-gnu",
         Call.getDefaultDataLayoutForTarget,
         Call.Layer_new LayerKind.Object none,
         Call.Layer_new LayerKind.Compile (some LayerKind.Object),
         Call.Layer_new LayerKind.Optimize (some LayerKind.Compile),
         Call.Layer_new LayerKind.CompileOnDemand (some LayerKind.Optimize),
         Call.createBareJITDylib "<main>", Call.GetForCurrentProcess "_", Call.addGenerator]
    ∧ (∀ o, ∀ call ∈ (KaleidoscopeJIT.Create o).calls, call.isCreateLCTM = false)
    ∧ (∀ o J, (KaleidoscopeJIT.Create o).value = Outcome.returned (Except.ok J) →
        o.EPCIU = Except.ok J.EPCIU ∧ J.CODLayerLCTM = J.EPCIU.LCTM)
    ∧ KaleidoscopeJIT.handleLazyCallThroughError =
        { errs := "LazyCallThrough error: Could not find function body",
          outcome := Outcome.exited 1 } := by
  refine ⟨⟨_, rfl, rfl, by simp [EPCIndirectionUtils.getLazyCallThroughManager]⟩, rfl, ?_, ?_, rfl⟩
  · intro o call hc
    exact (quiet_of_all _ (Create_calls_quiet o) call hc).2.2.2
  · intro o J h
    obtain ⟨EPC, EPCIU, Re, DL, PS⟩ := o
    cases EPC <;> cases EPCIU <;> cases Re <;> cases DL <;> cases PS <;>
      simp [KaleidoscopeJIT.Create, KaleidoscopeJIT.new, cantFail] at h
    subst h
    exact ⟨rfl, rfl⟩

/-! ### Adding a module -/

/-- C8: `addModule` without a tracker is `addModule` with the default tracker of the
main Dylib; for every tracker its one call is the `add` of the compile layer with
that tracker and the module, and it returns what that call returns. -/
theorem addModule_compile_layer (Add : LayerAdd) (J : KaleidoscopeJIT) (TSM : ThreadSafeModule) :
    J.addModule Add TSM none = J.addModule Add TSM (some J.MainJD.getDefaultResourceTracker)
    ∧ ∀ RT : ResourceTracker,
        (J.addModule Add TSM (some RT)).calls = [Call.Layer_add LayerKind.Compile RT TSM]
        ∧ (J.addModule Add TSM (some RT)).value = Add LayerKind.Compile RT TSM :=
  ⟨rfl, fun _ => ⟨rfl, rfl⟩⟩

/-! ### Teardown -/

/-- C9: for every outcome of the two steps, the destructor ends the session, reports
the failure of that step if there is one, then cleans up the indirection utilities,
and reports the failure of that step if there is one; each of the two steps is
called once, what is reported is exactly the failures, and nothing is returned. -/
theorem destroy_runs_both_steps (J : KaleidoscopeJIT) (o : TeardownOutcomes) :
    (J.destroy o).calls =
        [Call.endSession] ++ reportCalls o.endSession ++ [Call.cleanup] ++ reportCalls o.cleanup
    ∧ (J.destroy o).calls.count Call.endSession = 1
    ∧ (J.destroy o).calls.count Call.cleanup = 1
    ∧ (∀ Err, (J.destroy o).calls.count (Call.reportError Err) =
        (if o.endSession = some Err then 1 else 0) + (if o.cleanup = some Err then 1 else 0))
    ∧ (J.destroy o).value = () := by
  obtain ⟨e1, e2⟩ := o
  cases e1 <;> cases e2 <;>
    simp [KaleidoscopeJIT.destroy, reportCalls, List.count_cons, Nat.add_comm]

/-! ### The optimization pipeline -/

/-- C10: for every module, `optimizeModule` starts from an empty pass manager, builds
the pipeline instruction combining, reassociation, global value numbering, CFG
simplification, runs it once on each function of the module in module order, and
returns the same module, with each function as the four passes leave it, as a
success (the module itself when the passes change nothing); the result does not
depend on the request or on anything but the module and the passes. -/
theorem optimizeModule_pipeline (Sem : PassSemantics) (TSM : ThreadSafeModule)
    (R : MaterializationResponsibility) :
    (FunctionPassManager.new TSM.M).Passes = []
    ∧ (optimizeModule.body Sem TSM.M).value.2.Passes =
        [PassKind.InstructionCombining, PassKind.Reassociate, PassKind.GVN,
         PassKind.CFGSimplification]
    ∧ (KaleidoscopeJIT.optimizeModule Sem TSM R).calls =
        [Call.FPM_new TSM.M.ModuleID, Call.FPM_add PassKind.InstructionCombining,
         Call.FPM_add PassKind.Reassociate, Call.FPM_add PassKind.GVN,
         Call.FPM_add PassKind.CFGSimplification, Call.FPM_doInitialization]
        ++ TSM.M.Functions.map Call.FPM_run
    ∧ (KaleidoscopeJIT.optimizeModule Sem TSM R).value =
        Except.ok
          { M :=
            { ModuleID := TSM.M.ModuleID,
              Functions := TSM.M.Functions.map (fun F =>
                Sem PassKind.CFGSimplification (Sem PassKind.GVN
                  (Sem PassKind.Reassociate (Sem PassKind.InstructionCombining F)))) } }
    ∧ (KaleidoscopeJIT.optimizeModule (fun _ F => F) TSM R).value = Except.ok TSM
    ∧ (∀ R', KaleidoscopeJIT.optimizeModule Sem TSM R' = KaleidoscopeJIT.optimizeModule Sem TSM R) := by
  refine ⟨rfl, rfl, ?_, ?_, ?_, fun _ => rfl⟩
  · simp [KaleidoscopeJIT.optimizeModule, optimizeModule.body, runOnFunctions_calls]
  · simp [KaleidoscopeJIT.optimizeModule, optimizeModule.body, runOnFunctions_value,
      FunctionPassManager.run, FunctionPassManager.add, FunctionPassManager.new,
      FunctionPassManager.doInitialization]
  · have hid : (FunctionPassManager.run (fun _ F => F)
        ((((((FunctionPassManager.new TSM.M).add PassKind.InstructionCombining).add
          PassKind.Reassociate).add PassKind.GVN).add
          PassKind.CFGSimplification).doInitialization)) = id := by
      funext F
      rfl
    simp only [KaleidoscopeJIT.optimizeModule, optimizeModule.body, runOnFunctions_value, hid,
      List.map_id]

end Kaleidoscope
